import Mathlib

/-!
Shallow embedding of the solana-data-aggregator ingestion pipeline:
`src/data_processing.rs` (parser and validator), `src/data_storage.rs`
(Postgres-backed store), `src/api.rs` (query endpoint) and the scheduling
loop of `src/data_retrieval.rs` (`monitor_blockchain`).

Machine integers are modelled as `Nat` (for `u64`) and `Int` (for `i64`);
a Rust panic (index out of bounds, checked-subtraction overflow) is made
explicit through `Except RustPanic`.  Fields of the Solana SDK types that
the program never reads are omitted from the structures; every field the
program touches is present under its source name.
-/

set_option maxHeartbeats 1000000

namespace Aggregator

/-- A Rust panic, made explicit.  `subOverflow` is the debug-profile
behaviour of `u64` subtraction (`overflow-checks = on`); slice indexing
out of bounds panics in every profile. -/
inductive RustPanic where
  | indexOutOfBounds : RustPanic
  | subOverflow : RustPanic
deriving DecidableEq, Repr

/-- Rust slice indexing `v[i]` on a `Vec<u64>`: panics when out of bounds. -/
def vecIndex (v : List Nat) (i : Nat) : Except RustPanic Nat :=
  match v.get? i with
  | some x => Except.ok x
  | none => Except.error RustPanic.indexOutOfBounds

/-- Rust `u64` subtraction `a - b` under debug-profile overflow checks:
panics when `b > a`. -/
def subU64 (a b : Nat) : Except RustPanic Nat :=
  if b ≤ a then Except.ok (a - b) else Except.error RustPanic.subOverflow

/-- `solana_transaction_status::parse_accounts::ParsedAccount` (fields the
program reads; `parse_transaction` only ever reads `pubkey`). -/
structure ParsedAccount where
  pubkey : String
  writable : Bool
  signer : Bool
deriving DecidableEq, Repr

/-- `solana_transaction_status::UiParsedMessage` (fields the program reads:
`account_keys` and `recent_blockhash`). -/
structure UiParsedMessage where
  account_keys : List ParsedAccount
  recent_blockhash : String
deriving DecidableEq, Repr

/-- `solana_transaction_status::UiRawMessage` (opaque to the parser: the
`UiMessage::Raw` arm of `parse_transaction` reads none of its fields). -/
structure UiRawMessage where
  account_keys : List String
  recent_blockhash : String
deriving DecidableEq, Repr

/-- `solana_transaction_status::UiMessage`. -/
inductive UiMessage where
  | parsed : UiParsedMessage → UiMessage
  | raw : UiRawMessage → UiMessage
deriving DecidableEq, Repr

/-- `solana_transaction_status::UiTransaction`. -/
structure UiTransaction where
  signatures : List String
  message : UiMessage
deriving DecidableEq, Repr

/-- `solana_transaction_status::EncodedTransaction`.  The non-`Json`
variants carry payloads `parse_transaction` never reads; their payload
types are collapsed to `String`. -/
inductive EncodedTransaction where
  | legacyBinary : String → EncodedTransaction
  | binary : String → EncodedTransaction
  | json : UiTransaction → EncodedTransaction
  | accounts : String → EncodedTransaction
deriving DecidableEq, Repr

/-- `solana_transaction_status::UiTransactionStatusMeta` (fields the
program reads: `fee : u64`, `pre_balances : Vec<u64>`,
`post_balances : Vec<u64>`). -/
structure UiTransactionStatusMeta where
  fee : Nat
  pre_balances : List Nat
  post_balances : List Nat
deriving DecidableEq, Repr

/-- `solana_transaction_status::EncodedTransactionWithStatusMeta`. -/
structure EncodedTransactionWithStatusMeta where
  transaction : EncodedTransaction
  meta : Option UiTransactionStatusMeta
deriving DecidableEq, Repr

/-- `solana_transaction_status::EncodedConfirmedTransactionWithStatusMeta`;
`block_time : Option<UnixTimestamp>` is an optional `i64`. -/
structure EncodedConfirmedTransactionWithStatusMeta where
  slot : Nat
  transaction : EncodedTransactionWithStatusMeta
  block_time : Option Int
deriving DecidableEq, Repr

/-- `TransactionData` from `src/data_processing.rs`: `sol_amount`, `fee`
are `u64` (here `Nat`), `timestamp` is `i64` (here `Int`). -/
structure TransactionData where
  signature : String
  sender : String
  receiver : String
  sol_amount : Nat
  fee : Nat
  timestamp : Int
  prev_blockhash : String
deriving DecidableEq, Repr

/-- `parse_transaction` from `src/data_processing.rs`.  Returns
`.ok none` where the Rust function returns `None`, `.ok (some d)` where it
returns `Some(d)`, and `.error _` where the Rust function panics
(`meta.post_balances[1] - meta.pre_balances[1]` indexes both arrays at 1
without a bounds check and subtracts without an underflow check). -/
def parse_transaction (txn : EncodedConfirmedTransactionWithStatusMeta) :
    Except RustPanic (Option TransactionData) :=
  match txn.transaction.transaction with
  | EncodedTransaction.json ⟨signatures, UiMessage.parsed msg⟩ =>
    let sender := ((msg.account_keys.head?).map ParsedAccount.pubkey).getD ""
    let receiver := ((msg.account_keys.getLast?).map ParsedAccount.pubkey).getD ""
    match txn.transaction.meta with
    | none => Except.ok none
    | some meta => do
      let post1 ← vecIndex meta.post_balances 1
      let pre1 ← vecIndex meta.pre_balances 1
      let sol_amount ← subU64 post1 pre1
      Except.ok (some
        { signature := (signatures.head?).getD ""
          sender := sender
          receiver := receiver
          sol_amount := sol_amount
          fee := meta.fee
          timestamp := txn.block_time.getD 0
          prev_blockhash := msg.recent_blockhash })
  | EncodedTransaction.json ⟨_, UiMessage.raw _⟩ => Except.ok none
  | _ => Except.ok none

/-- The character class of the regex `[1-9A-HJ-NP-Za-km-z]` used by
`is_valid_pubkey` and `is_valid_blockhash`. -/
def base58Char (c : Char) : Bool :=
  ('1' ≤ c && c ≤ '9') || ('A' ≤ c && c ≤ 'H') || ('J' ≤ c && c ≤ 'N') ||
  ('P' ≤ c && c ≤ 'Z') || ('a' ≤ c && c ≤ 'k') || ('m' ≤ c && c ≤ 'z')

/-- The regex `^[1-9A-HJ-NP-Za-km-z]{32,44}$`: 32 to 44 characters, all
from the restricted base58 class. -/
def base58regexMatch (s : String) : Bool :=
  32 ≤ s.length && s.length ≤ 44 && s.data.all base58Char

/-- `is_valid_signature` from `src/data_processing.rs`. -/
def is_valid_signature (signature : String) : Bool :=
  !signature.isEmpty

/-- `is_valid_pubkey` from `src/data_processing.rs`:
`pubkey.len() == 44 && re.is_match(pubkey)`. -/
def is_valid_pubkey (pubkey : String) : Bool :=
  pubkey.length == 44 && base58regexMatch pubkey

/-- `is_valid_sender_receiver` from `src/data_processing.rs`. -/
def is_valid_sender_receiver (sender receiver : String) : Bool :=
  sender != receiver

/-- `is_valid_amount` from `src/data_processing.rs`. -/
def is_valid_amount (amount : Nat) : Bool :=
  amount > 0

/-- `is_valid_fee` from `src/data_processing.rs`. -/
def is_valid_fee (fee : Nat) : Bool :=
  fee > 0

/-- `is_valid_timestamp` from `src/data_processing.rs`. -/
def is_valid_timestamp (timestamp : Int) : Bool :=
  timestamp ≥ 0

/-- `is_valid_blockhash` from `src/data_processing.rs`:
`hash.len() == 44 && re.is_match(hash)`. -/
def is_valid_blockhash (hash : String) : Bool :=
  hash.length == 44 && base58regexMatch hash

/-- `is_valid_transaction` from `src/data_processing.rs`. -/
def is_valid_transaction (txn : TransactionData) : Bool :=
  is_valid_signature txn.signature
    && is_valid_pubkey txn.sender
    && is_valid_pubkey txn.receiver
    && is_valid_sender_receiver txn.sender txn.receiver
    && is_valid_amount txn.sol_amount
    && is_valid_fee txn.fee
    && is_valid_timestamp txn.timestamp
    && is_valid_blockhash txn.prev_blockhash

/-- `process_transactions` from `src/data_processing.rs`: parse each raw
transaction, drop the unparseable ones, keep only the valid ones.  A panic
in any `parse_transaction` call aborts the whole batch (Rust panics
propagate), hence the `Except`. -/
def process_transactions
    (transactions : List EncodedConfirmedTransactionWithStatusMeta) :
    Except RustPanic (List TransactionData) :=
  (transactions.mapM parse_transaction).map fun parsed =>
    (parsed.filterMap id).filter is_valid_transaction

/-!  Store (`src/data_storage.rs`).  `get_pool` creates the table
`transactions (id SERIAL PRIMARY KEY, signature VARCHAR NOT NULL, sender
VARCHAR NOT NULL, receiver VARCHAR NOT NULL, sol_amount BIGINT NOT NULL,
fee BIGINT NOT NULL, timestamp BIGINT NOT NULL, prev_blockhash VARCHAR NOT
NULL)`: the only key is the surrogate `id`, there is no uniqueness
constraint on `signature`.  `insert_transaction` runs a plain
`INSERT INTO transactions ... VALUES ...` with no `ON CONFLICT` clause, so
each call appends one fresh row; the table is modelled as the list of rows
in insertion order (`id` order). -/

/-- One row of the `transactions` table: `sol_amount`, `fee`, `timestamp`
are Postgres `BIGINT` (`i64`, here `Int`). -/
structure Row where
  signature : String
  sender : String
  receiver : String
  sol_amount : Int
  fee : Int
  timestamp : Int
  prev_blockhash : String
deriving DecidableEq, Repr

/-- Rust `v as i64` for a `u64` value `v < 2^64`: reinterpret the bits. -/
def u64_as_i64 (v : Nat) : Int :=
  if v < 2 ^ 63 then (v : Int) else (v : Int) - 2 ^ 64

/-- Rust `v as u64` for an `i64` value: reinterpret the bits. -/
def i64_as_u64 (v : Int) : Nat :=
  (v % 2 ^ 64).toNat

/-- `insert_transaction` from `src/data_storage.rs`: binds
`txn_data.sol_amount as i64` and `txn_data.fee as i64` and executes a
plain `INSERT`, appending one row to the table. -/
def insert_transaction (table : List Row) (txn_data : TransactionData) :
    List Row :=
  table ++ [{ signature := txn_data.signature
              sender := txn_data.sender
              receiver := txn_data.receiver
              sol_amount := u64_as_i64 txn_data.sol_amount
              fee := u64_as_i64 txn_data.fee
              timestamp := txn_data.timestamp
              prev_blockhash := txn_data.prev_blockhash }]

/-- `get_all_transactions` from `src/data_storage.rs`: `SELECT` every row
and rebuild a `TransactionData` with `row.sol_amount as u64` and
`row.fee as u64`. -/
def get_all_transactions (table : List Row) : List TransactionData :=
  table.map fun row =>
    { signature := row.signature
      sender := row.sender
      receiver := row.receiver
      sol_amount := i64_as_u64 row.sol_amount
      fee := i64_as_u64 row.fee
      timestamp := row.timestamp
      prev_blockhash := row.prev_blockhash }

/-- The error side of `anyhow::Result` as seen by the API handler; its
payload is never inspected. -/
structure StorageError where
  message : String
deriving DecidableEq, Repr

/-- `get_transactions` from `src/api.rs`: the body of the JSON response of
the `/transactions` endpoint, as a function of the outcome of
`get_all_transactions`.  `Ok(transactions)` is served as is; `Err(_)` is
served as the empty array. -/
def get_transactions
    (result : Except StorageError (List TransactionData)) :
    List TransactionData :=
  match result with
  | Except.ok transactions => transactions
  | Except.error _ => []

/-!  Scheduler (`monitor_blockchain` in `src/data_retrieval.rs`).  The
loop is `interval.tick().await` followed by the cycle's work (fetch,
process, insert), sequentially, on one task.  `tokio::time::interval`
is used with its default missed-tick behaviour (`Burst`): `tick()`
completes at `max (now, deadline)` and advances the deadline by exactly
one period, so ticks whose nominal time passed while the work ran
complete immediately, one after another, until the schedule catches up.
The timing model below takes the period and the list of cycle work
durations and returns each cycle's `(start, end)` times. -/

/-- One step per cycle: `t` is the current time (the previous cycle's end),
`deadline` the interval's next nominal tick time.  The cycle starts when
`tick()` completes, at `max t deadline`, runs for `d`, and the deadline
advances by one period (tokio `MissedTickBehavior.Burst`, the default). -/
def runCycles (period : Nat) :
    List Nat → Nat → Nat → List (Nat × Nat)
  | [], _, _ => []
  | d :: ds, t, deadline =>
    (max t deadline, max t deadline + d)
      :: runCycles period ds (max t deadline + d) (deadline + period)

/-- The `(start, end)` times of the cycles of `monitor_blockchain`, given
the tick period and each cycle's work duration.  The interval's first
deadline is the creation instant (`t = 0`). -/
def monitor_blockchain_schedule (period : Nat) (durations : List Nat) :
    List (Nat × Nat) :=
  runCycles period durations 0 0

/-- Modelled from the spec: the scheduler the spec describes, where a
nominal tick that arrives while a cycle's work is still running is
dropped, and the next cycle starts at the first nominal tick time
(multiple of the period) not earlier than the end of the work
(`MissedTickBehavior.Skip` semantics). -/
def skipCycles (period : Nat) :
    List Nat → Nat → Nat → List (Nat × Nat)
  | [], _, _ => []
  | d :: ds, t, deadline =>
    let fire := max t deadline
    let next := if period = 0 then fire + d
      else deadline
        + period * max 1 ((fire + d - deadline + period - 1) / period)
    (fire, fire + d) :: skipCycles period ds (fire + d) next

/-- Modelled from the spec: cycle `(start, end)` times under
drop-missed-ticks scheduling. -/
def skip_schedule (period : Nat) (durations : List Nat) :
    List (Nat × Nat) :=
  skipCycles period durations 0 0

/-!  Spec-side formulation of the address syntax rule, for comparison with
the source's `is_valid_pubkey` / `is_valid_blockhash`. -/

/-- The spec's "ledger-specific" fixed address length, a configured
constant. -/
def addressLength : Nat := 44

/-- The spec's address syntax rule, stated in the spec's own words: a
fixed-length string over the restricted alphanumeric alphabet that
excludes the visually ambiguous characters `0`, `O`, `I`, `l`. -/
def spec_address_ok (s : String) : Prop :=
  s.length = addressLength ∧
    ∀ c ∈ s.data, c.isAlphanum = true ∧
      c ≠ '0' ∧ c ≠ 'O' ∧ c ≠ 'I' ∧ c ≠ 'l'

/-!  Concrete fixtures: the §8 end-to-end fixture of the spec (two
44-character addresses, pre-balances `[100000, 50000]`, post-balances
`[85000, 60000]`, fee `5000`, block time `1625077743`, the recent block
hash of the repository's own tests, one signature), and small variants
that exercise the parser's edge cases. -/

def sigFixture : String :=
  "5NzT3RMAGiJjxGqAXgy6xakdcTfV7oF2dt2m5x8y7vc48pmQ9JVDd8LfPtkMRNZkNmJmhYoP2cFHGip7vRtXVcdv"

def pubkeyA : String := "AAAAAAAAAAAAAAAAAAAAAAAAAAAAAAAAAAAAAAAAAAAA"

def pubkeyB : String := "BBBBBBBBBBBBBBBBBBBBBBBBBBBBBBBBBBBBBBBBBBBB"

def blockhashFixture : String := "4sZ76MsNd8y3WSw2L1nfd3AqLoYxdmC98sERoMRbHV14"

def metaFixture : UiTransactionStatusMeta :=
  { fee := 5000
    pre_balances := [100000, 50000]
    post_balances := [85000, 60000] }

def parsedMsgFixture : UiParsedMessage :=
  { account_keys :=
      [{ pubkey := pubkeyA, writable := true, signer := true },
       { pubkey := pubkeyB, writable := false, signer := false }]
    recent_blockhash := blockhashFixture }

def txnFixture : EncodedConfirmedTransactionWithStatusMeta :=
  { slot := 42
    transaction :=
      { transaction := EncodedTransaction.json
          { signatures := [sigFixture]
            message := UiMessage.parsed parsedMsgFixture }
        meta := some metaFixture }
    block_time := some 1625077743 }

/-- The §8 fixture with empty balance arrays in the metadata. -/
def txnShortBalances : EncodedConfirmedTransactionWithStatusMeta :=
  { slot := 42
    transaction :=
      { transaction := EncodedTransaction.json
          { signatures := [sigFixture]
            message := UiMessage.parsed parsedMsgFixture }
        meta := some { fee := 5000, pre_balances := [], post_balances := [] } }
    block_time := some 1625077743 }

/-- The §8 fixture with an empty signature list. -/
def txnNoSig : EncodedConfirmedTransactionWithStatusMeta :=
  { slot := 42
    transaction :=
      { transaction := EncodedTransaction.json
          { signatures := []
            message := UiMessage.parsed parsedMsgFixture }
        meta := some metaFixture }
    block_time := some 1625077743 }

/-- The §8 fixture with an empty account-key list. -/
def txnEmptyKeys : EncodedConfirmedTransactionWithStatusMeta :=
  { slot := 42
    transaction :=
      { transaction := EncodedTransaction.json
          { signatures := [sigFixture]
            message := UiMessage.parsed
              { account_keys := [], recent_blockhash := blockhashFixture } }
        meta := some metaFixture }
    block_time := some 1625077743 }

/-- A transaction whose message is still in raw (opaque) form. -/
def txnRawMessage : EncodedConfirmedTransactionWithStatusMeta :=
  { slot := 42
    transaction :=
      { transaction := EncodedTransaction.json
          { signatures := [sigFixture]
            message := UiMessage.raw
              { account_keys := [], recent_blockhash := blockhashFixture } }
        meta := some metaFixture }
    block_time := some 1625077743 }

/-- The §8 fixture with the metadata missing. -/
def txnNoMeta : EncodedConfirmedTransactionWithStatusMeta :=
  { slot := 42
    transaction :=
      { transaction := EncodedTransaction.json
          { signatures := [sigFixture]
            message := UiMessage.parsed parsedMsgFixture }
        meta := none }
    block_time := some 1625077743 }

/-- The record the §8 fixture parses to. -/
def recordFixture : TransactionData :=
  { signature := sigFixture
    sender := pubkeyA
    receiver := pubkeyB
    sol_amount := 10000
    fee := 5000
    timestamp := 1625077743
    prev_blockhash := blockhashFixture }

deriving instance DecidableEq for Except

/-!  Helper lemmas. -/

/-- The regex character class `[1-9A-HJ-NP-Za-km-z]` is exactly the
alphanumeric characters without `0`, `O`, `I`, `l`. -/
theorem base58Char_eq_true_iff (c : Char) :
    base58Char c = true ↔
      (c.isAlphanum = true ∧ c ≠ '0' ∧ c ≠ 'O' ∧ c ≠ 'I' ∧ c ≠ 'l') := by
  have hb49 : ('1').val.toBitVec.toNat = 49 := rfl
  have hn49 : ('1').val.toNat = 49 := rfl
  have hb57 : ('9').val.toBitVec.toNat = 57 := rfl
  have hn57 : ('9').val.toNat = 57 := rfl
  have hb65 : ('A').val.toBitVec.toNat = 65 := rfl
  have hn65 : ('A').val.toNat = 65 := rfl
  have hb72 : ('H').val.toBitVec.toNat = 72 := rfl
  have hn72 : ('H').val.toNat = 72 := rfl
  have hb73 : ('I').val.toBitVec.toNat = 73 := rfl
  have hn73 : ('I').val.toNat = 73 := rfl
  have hb74 : ('J').val.toBitVec.toNat = 74 := rfl
  have hn74 : ('J').val.toNat = 74 := rfl
  have hb78 : ('N').val.toBitVec.toNat = 78 := rfl
  have hn78 : ('N').val.toNat = 78 := rfl
  have hb79 : ('O').val.toBitVec.toNat = 79 := rfl
  have hn79 : ('O').val.toNat = 79 := rfl
  have hb80 : ('P').val.toBitVec.toNat = 80 := rfl
  have hn80 : ('P').val.toNat = 80 := rfl
  have hb90 : ('Z').val.toBitVec.toNat = 90 := rfl
  have hn90 : ('Z').val.toNat = 90 := rfl
  have hb97 : ('a').val.toBitVec.toNat = 97 := rfl
  have hn97 : ('a').val.toNat = 97 := rfl
  have hb107 : ('k').val.toBitVec.toNat = 107 := rfl
  have hn107 : ('k').val.toNat = 107 := rfl
  have hb108 : ('l').val.toBitVec.toNat = 108 := rfl
  have hn108 : ('l').val.toNat = 108 := rfl
  have hb109 : ('m').val.toBitVec.toNat = 109 := rfl
  have hn109 : ('m').val.toNat = 109 := rfl
  have hb122 : ('z').val.toBitVec.toNat = 122 := rfl
  have hn122 : ('z').val.toNat = 122 := rfl
  have hb48 : ('0').val.toBitVec.toNat = 48 := rfl
  have hn48 : ('0').val.toNat = 48 := rfl
  have u48 : (UInt32.toBitVec 48).toNat = 48 := rfl
  have u57 : (UInt32.toBitVec 57).toNat = 57 := rfl
  have u65 : (UInt32.toBitVec 65).toNat = 65 := rfl
  have u90 : (UInt32.toBitVec 90).toNat = 90 := rfl
  have u97 : (UInt32.toBitVec 97).toNat = 97 := rfl
  have u122 : (UInt32.toBitVec 122).toNat = 122 := rfl
  simp only [base58Char, Char.isAlphanum, Char.isAlpha, Char.isUpper,
    Char.isLower, Char.isDigit, Bool.or_eq_true, Bool.and_eq_true,
    decide_eq_true_eq, Char.le_def, UInt32.le_def, BitVec.le_def,
    Char.ext_iff, UInt32.ext_iff, BitVec.toNat_eq, ne_eq, UInt32.toNat,
    hb49, hn49, hb57, hn57, hb65, hn65, hb72, hn72, hb73, hn73, hb74,
    hn74, hb78, hn78, hb79, hn79, hb80, hn80, hb90, hn90, hb97, hn97,
    hb107, hn107, hb108, hn108, hb109, hn109, hb122, hn122, hb48, hn48,
    u48, u57, u65, u90, u97, u122]
  omega

/-- The shared body of `is_valid_pubkey` and `is_valid_blockhash` agrees
with the spec's address rule. -/
theorem len44_regex_iff_spec (s : String) :
    (s.length == 44 && base58regexMatch s) = true ↔ spec_address_ok s := by
  simp only [base58regexMatch, spec_address_ok, addressLength,
    Bool.and_eq_true, beq_iff_eq, decide_eq_true_eq, List.all_eq_true]
  constructor
  · rintro ⟨hlen, hbounds, hall⟩
    exact ⟨hlen, fun c hc => (base58Char_eq_true_iff c).mp (hall c hc)⟩
  · rintro ⟨hlen, hall⟩
    exact ⟨hlen, ⟨by omega, by omega⟩,
      fun c hc => (base58Char_eq_true_iff c).mpr (hall c hc)⟩

theorem is_valid_pubkey_iff_spec (s : String) :
    is_valid_pubkey s = true ↔ spec_address_ok s :=
  len44_regex_iff_spec s

theorem is_valid_blockhash_iff_spec (s : String) :
    is_valid_blockhash s = true ↔ spec_address_ok s :=
  len44_regex_iff_spec s

/-- `v as i64 as u64` round-trips for every `u64` value. -/
theorem i64_as_u64_u64_as_i64 (v : Nat) (h : v < 2 ^ 64) :
    i64_as_u64 (u64_as_i64 v) = v := by
  simp only [u64_as_i64, i64_as_u64]
  split <;> omega

/-- Characterization of `parse_transaction` on a JSON transaction with a
structurally parsed message and metadata whose balance arrays are long
enough and do not make the amount subtraction underflow. -/
theorem parse_transaction_json_parsed (slot : Nat) (sigs : List String)
    (msg : UiParsedMessage) (meta : UiTransactionStatusMeta)
    (bt : Option Int)
    (hpost : 1 < meta.post_balances.length)
    (hpre : 1 < meta.pre_balances.length)
    (hle : meta.pre_balances.getD 1 0 ≤ meta.post_balances.getD 1 0) :
    parse_transaction
      ⟨slot, ⟨EncodedTransaction.json ⟨sigs, UiMessage.parsed msg⟩,
        some meta⟩, bt⟩ =
      Except.ok (some
        { signature := sigs.headD ""
          sender := ((msg.account_keys.head?).map ParsedAccount.pubkey).getD ""
          receiver :=
            ((msg.account_keys.getLast?).map ParsedAccount.pubkey).getD ""
          sol_amount :=
            meta.post_balances.getD 1 0 - meta.pre_balances.getD 1 0
          fee := meta.fee
          timestamp := bt.getD 0
          prev_blockhash := msg.recent_blockhash }) := by
  have hpost' : meta.post_balances.get? 1 =
      some (meta.post_balances.getD 1 0) := by
    rw [List.getD_eq_getElem?_getD]
    cases hx : meta.post_balances.get? 1 with
    | none => exact absurd (List.get?_eq_none.mp hx) (by omega)
    | some x => simp [← List.get?_eq_getElem?, hx]
  have hpre' : meta.pre_balances.get? 1 =
      some (meta.pre_balances.getD 1 0) := by
    rw [List.getD_eq_getElem?_getD]
    cases hx : meta.pre_balances.get? 1 with
    | none => exact absurd (List.get?_eq_none.mp hx) (by omega)
    | some x => simp [← List.get?_eq_getElem?, hx]
  have hle' : meta.pre_balances[1]?.getD 0 ≤ meta.post_balances[1]?.getD 0 := by
    simpa [List.getD_eq_getElem?_getD] using hle
  simp only [parse_transaction, vecIndex, hpost', hpre', subU64,
    List.headD_eq_head?_getD]
  simp [Bind.bind, Except.bind, if_pos hle']

theorem getD_eq_of_get? {l : List Nat} {n x : Nat} (d : Nat)
    (h : l.get? n = some x) : l.getD n d = x := by
  rw [List.getD_eq_getElem?_getD, ← List.get?_eq_getElem?, h]
  rfl

/-- Inversion: the only way `parse_transaction` produces a record. -/
theorem parse_transaction_ok_some_inv (slot : Nat) (sigs : List String)
    (msg : UiParsedMessage) (m : UiTransactionStatusMeta) (bt : Option Int)
    (r : TransactionData)
    (hr : parse_transaction
      ⟨slot, ⟨EncodedTransaction.json ⟨sigs, UiMessage.parsed msg⟩,
        some m⟩, bt⟩ = Except.ok (some r)) :
    ∃ post1 pre1,
      m.post_balances.get? 1 = some post1 ∧
      m.pre_balances.get? 1 = some pre1 ∧ pre1 ≤ post1 ∧
      r = { signature := sigs.headD ""
            sender :=
              ((msg.account_keys.head?).map ParsedAccount.pubkey).getD ""
            receiver :=
              ((msg.account_keys.getLast?).map ParsedAccount.pubkey).getD ""
            sol_amount := post1 - pre1
            fee := m.fee
            timestamp := bt.getD 0
            prev_blockhash := msg.recent_blockhash } := by
  simp only [parse_transaction, vecIndex] at hr
  cases hpost : m.post_balances.get? 1 with
  | none =>
    rw [hpost] at hr
    simp [Bind.bind, Except.bind] at hr
  | some post1 =>
    cases hpre : m.pre_balances.get? 1 with
    | none =>
      rw [hpost, hpre] at hr
      simp [Bind.bind, Except.bind] at hr
    | some pre1 =>
      rw [hpost, hpre] at hr
      by_cases hle : pre1 ≤ post1
      · simp only [Bind.bind, Except.bind, subU64, if_pos hle] at hr
        refine ⟨post1, pre1, rfl, rfl, hle, ?_⟩
        injection hr with h1
        injection h1 with h2
        cases h2
        simp [List.headD_eq_head?_getD]
      · simp [Bind.bind, Except.bind, subU64, if_neg hle] at hr

/-- Every cycle of the timing model starts no earlier than the moment the
loop reaches its `tick()` call. -/
theorem runCycles_start_le (p : Nat) :
    ∀ (ds : List Nat) (t dl : Nat), ∀ x ∈ runCycles p ds t dl, t ≤ x.1
  | [], t, dl => by simp [runCycles]
  | d :: ds, t, dl => by
    intro x hx
    simp only [runCycles, List.mem_cons] at hx
    rcases hx with rfl | hx
    · exact le_max_left _ _
    · have h := runCycles_start_le p ds (max t dl + d) (dl + p) x hx
      exact le_trans (le_max_left t dl) (le_trans (Nat.le_add_right _ d) h)

/-- Cycles of the timing model never overlap: each cycle ends no later
than the next one starts. -/
theorem runCycles_chain (p : Nat) :
    ∀ (ds : List Nat) (t dl : Nat),
      List.Chain' (fun a b : Nat × Nat => a.2 ≤ b.1) (runCycles p ds t dl)
  | [], _, _ => by simp [runCycles]
  | d :: ds, t, dl => by
    rw [runCycles]
    refine List.chain'_cons'.mpr ⟨?_, runCycles_chain p ds _ _⟩
    intro y hy
    exact runCycles_start_le p ds _ _ y (List.mem_of_mem_head? hy)

/-!  Claims. -/

/-- C1: the claim says `insert` is an idempotent upsert keyed on
`signature`, leaving `readAll` with exactly one record per signature.
The table has no uniqueness constraint on `signature` and
`insert_transaction` is a plain `INSERT`, so inserting the same record
twice leaves two rows with its signature in `get_all_transactions`. -/
theorem C1_insert_twice_duplicate_rows :
    ((get_all_transactions
        (insert_transaction (insert_transaction [] recordFixture)
          recordFixture)).filter
      (fun t => t.signature == recordFixture.signature)).length = 2 := by
  decide

/-- C2 counterexample: on a JSON transaction with a parsed message and
metadata whose balance arrays are empty, `parse_transaction` panics
(index out of bounds on `post_balances[1]`) instead of returning absent:
the claim that every unresolvable case yields absent and no execution
panics is false. -/
theorem C2_short_balances_panic :
    parse_transaction txnShortBalances =
      Except.error RustPanic.indexOutOfBounds
    ∧ (parse_transaction txnShortBalances).isOk = false
    ∧ parse_transaction txnShortBalances ≠ Except.ok none := by
  refine ⟨rfl, rfl, by decide⟩

/-- C2 amended: `parse_transaction` does not panic provided that whenever
metadata is present, its balance arrays have at least two entries and the
post-balance at index 1 is at least the pre-balance at index 1; all
unresolvable encodings then yield a result (absent or a record), never a
panic. -/
theorem C2_parse_total_under_balance_guards
    (txn : EncodedConfirmedTransactionWithStatusMeta)
    (hmeta : ∀ m, txn.transaction.meta = some m →
      1 < m.pre_balances.length ∧ 1 < m.post_balances.length ∧
        m.pre_balances.getD 1 0 ≤ m.post_balances.getD 1 0) :
    (parse_transaction txn).isOk = true := by
  obtain ⟨slot, ⟨tx, meta⟩, bt⟩ := txn
  cases tx with
  | json ut =>
    obtain ⟨sigs, msg⟩ := ut
    cases msg with
    | parsed pm =>
      cases meta with
      | none => rfl
      | some m =>
        obtain ⟨hpre, hpost, hle⟩ := hmeta m rfl
        rw [parse_transaction_json_parsed slot sigs pm m bt hpost hpre hle]
        rfl
    | raw rm => rfl
  | legacyBinary s => rfl
  | binary s => rfl
  | accounts s => rfl

/-- C2 witness: the §8 fixture satisfies the balance guards and parses
without a panic. -/
theorem C2_parse_total_under_balance_guards_witness :
    (parse_transaction txnFixture).isOk = true :=
  C2_parse_total_under_balance_guards txnFixture (fun m hm => by
    have h : (some metaFixture : Option UiTransactionStatusMeta) = some m :=
      hm
    injection h with h1
    subst h1
    exact ⟨by decide, by decide, by decide⟩)

/-- C3 counterexample: on a transaction whose signature list is empty (and
which is otherwise parseable), `parse_transaction` does not return absent;
it returns a record whose signature is the empty string. -/
theorem C3_empty_signatures_not_absent :
    parse_transaction txnNoSig =
      Except.ok (some { recordFixture with signature := "" })
    ∧ parse_transaction txnNoSig ≠ Except.ok none := by
  refine ⟨rfl, by decide⟩

/-- C3 amended: whenever `parse_transaction` returns a record, the
record's signature is the first entry of the transaction's signature list,
or the empty string when the list is empty (the parse does not fail; the
empty signature is rejected only later, by `is_valid_signature`). -/
theorem C3_parse_signature_head_or_empty :
    (∀ (slot : Nat) (sigs : List String) (msg : UiParsedMessage)
        (meta : Option UiTransactionStatusMeta) (bt : Option Int)
        (r : TransactionData),
      parse_transaction
        ⟨slot, ⟨EncodedTransaction.json ⟨sigs, UiMessage.parsed msg⟩,
          meta⟩, bt⟩ = Except.ok (some r) →
        r.signature = sigs.headD "")
    ∧ parse_transaction txnNoSig =
        Except.ok (some { recordFixture with signature := "" })
    ∧ is_valid_signature "" = false := by
  refine ⟨?_, rfl, rfl⟩
  intro slot sigs msg meta bt r hr
  cases meta with
  | none => simp [parse_transaction] at hr
  | some m =>
    obtain ⟨post1, pre1, -, -, -, rfl⟩ :=
      parse_transaction_ok_some_inv _ _ _ _ _ _ hr
    rfl

/-- C3 witness: on the §8 fixture the parsed signature is the head of the
fixture's signature list. -/
theorem C3_parse_signature_head_or_empty_witness :
    recordFixture.signature = List.headD [sigFixture] "" :=
  C3_parse_signature_head_or_empty.1 42 [sigFixture] parsedMsgFixture
    (some metaFixture) (some 1625077743) recordFixture rfl

/-- C4: `is_valid_transaction` holds exactly when the signature is
non-empty, sender and receiver satisfy the fixed-length restricted-base58
address rule, sender differs from receiver, amount and fee are positive,
the timestamp is non-negative and the previous block hash satisfies the
same address rule; in particular zero amount or fee is rejected, one is
accepted, and equal sender and receiver is always rejected. -/
theorem C4_is_valid_transaction_characterization :
    (∀ t : TransactionData, is_valid_transaction t = true ↔
      (t.signature ≠ "" ∧ spec_address_ok t.sender ∧
        spec_address_ok t.receiver ∧ t.sender ≠ t.receiver ∧
        0 < t.sol_amount ∧ 0 < t.fee ∧ 0 ≤ t.timestamp ∧
        spec_address_ok t.prev_blockhash))
    ∧ (∀ t : TransactionData, t.sender = t.receiver →
        is_valid_transaction t = false)
    ∧ is_valid_transaction { recordFixture with sol_amount := 0 } = false
    ∧ is_valid_transaction { recordFixture with fee := 0 } = false
    ∧ is_valid_transaction
        { recordFixture with sol_amount := 1, fee := 1 } = true := by
  have hiff : ∀ t : TransactionData, is_valid_transaction t = true ↔
      (t.signature ≠ "" ∧ spec_address_ok t.sender ∧
        spec_address_ok t.receiver ∧ t.sender ≠ t.receiver ∧
        0 < t.sol_amount ∧ 0 < t.fee ∧ 0 ≤ t.timestamp ∧
        spec_address_ok t.prev_blockhash) := by
    intro t
    have hsig : (t.signature.isEmpty = false) ↔ t.signature ≠ "" := by
      rw [Bool.eq_false_iff]
      exact not_congr (String.isEmpty_iff t.signature)
    simp only [is_valid_transaction, Bool.and_eq_true, is_valid_signature,
      is_valid_sender_receiver, is_valid_amount, is_valid_fee,
      is_valid_timestamp, Bool.not_eq_true', bne_iff_ne, ne_eq,
      decide_eq_true_eq, gt_iff_lt, ge_iff_le,
      is_valid_pubkey_iff_spec, is_valid_blockhash_iff_spec, hsig]
    tauto
  refine ⟨hiff, fun t h => ?_, by decide, by decide, by decide⟩
  cases hv : is_valid_transaction t with
  | false => rfl
  | true =>
    obtain ⟨-, -, -, hne, -⟩ := (hiff t).mp hv
    exact absurd h hne

/-- C4 witness: a record whose receiver equals its sender is rejected. -/
theorem C4_is_valid_transaction_characterization_witness :
    is_valid_transaction { recordFixture with receiver := pubkeyA } =
      false :=
  C4_is_valid_transaction_characterization.2.1
    { recordFixture with receiver := pubkeyA } rfl

/-- C5: a transaction whose message is still in raw (opaque) form, or
whose transaction is in any non-JSON encoding, parses to absent; and a
transaction with missing metadata parses to absent. -/
theorem C5_opaque_or_missing_meta_absent :
    (∀ (txn : EncodedConfirmedTransactionWithStatusMeta)
        (sigs : List String) (rmsg : UiRawMessage),
      txn.transaction.transaction =
          EncodedTransaction.json ⟨sigs, UiMessage.raw rmsg⟩ →
        parse_transaction txn = Except.ok none)
    ∧ (∀ (txn : EncodedConfirmedTransactionWithStatusMeta) (s : String),
        txn.transaction.transaction = EncodedTransaction.legacyBinary s →
          parse_transaction txn = Except.ok none)
    ∧ (∀ (txn : EncodedConfirmedTransactionWithStatusMeta) (s : String),
        txn.transaction.transaction = EncodedTransaction.binary s →
          parse_transaction txn = Except.ok none)
    ∧ (∀ (txn : EncodedConfirmedTransactionWithStatusMeta) (s : String),
        txn.transaction.transaction = EncodedTransaction.accounts s →
          parse_transaction txn = Except.ok none)
    ∧ (∀ txn : EncodedConfirmedTransactionWithStatusMeta,
        txn.transaction.meta = none → parse_transaction txn = Except.ok none) := by
  refine ⟨?_, ?_, ?_, ?_, ?_⟩
  · intro txn sigs rmsg h
    obtain ⟨slot, ⟨tx, meta⟩, bt⟩ := txn
    subst h
    rfl
  · intro txn s h
    obtain ⟨slot, ⟨tx, meta⟩, bt⟩ := txn
    subst h
    rfl
  · intro txn s h
    obtain ⟨slot, ⟨tx, meta⟩, bt⟩ := txn
    subst h
    rfl
  · intro txn s h
    obtain ⟨slot, ⟨tx, meta⟩, bt⟩ := txn
    subst h
    rfl
  · intro txn h
    obtain ⟨slot, ⟨tx, meta⟩, bt⟩ := txn
    subst h
    cases tx with
    | json ut =>
      obtain ⟨sigs, msg⟩ := ut
      cases msg with
      | parsed pm => rfl
      | raw rm => rfl
    | legacyBinary s => rfl
    | binary s => rfl
    | accounts s => rfl

/-- C5 witness: the raw-message fixture and the missing-metadata fixture
both parse to absent. -/
theorem C5_opaque_or_missing_meta_absent_witness :
    parse_transaction txnRawMessage = Except.ok none
    ∧ parse_transaction txnNoMeta = Except.ok none :=
  ⟨C5_opaque_or_missing_meta_absent.1 txnRawMessage [sigFixture]
      ⟨[], blockhashFixture⟩ rfl,
   C5_opaque_or_missing_meta_absent.2.2.2.2 txnNoMeta rfl⟩

/-- C6: whenever `parse_transaction` produces a record, its amount is the
post-balance minus the pre-balance at the fixed account index 1, the same
index for every transaction; on the §8 fixture this yields amount 10000,
fee 5000 and timestamp 1625077743. -/
theorem C6_amount_from_fixed_index_one :
    (∀ (slot : Nat) (sigs : List String) (msg : UiParsedMessage)
        (m : UiTransactionStatusMeta) (bt : Option Int)
        (r : TransactionData),
      parse_transaction
        ⟨slot, ⟨EncodedTransaction.json ⟨sigs, UiMessage.parsed msg⟩,
          some m⟩, bt⟩ = Except.ok (some r) →
        r.sol_amount =
          m.post_balances.getD 1 0 - m.pre_balances.getD 1 0)
    ∧ parse_transaction txnFixture = Except.ok (some recordFixture)
    ∧ recordFixture.sol_amount = 10000 ∧ recordFixture.fee = 5000
    ∧ recordFixture.timestamp = 1625077743 := by
  refine ⟨?_, rfl, rfl, rfl, rfl⟩
  intro slot sigs msg m bt r hr
  obtain ⟨post1, pre1, hpost, hpre, hle, rfl⟩ :=
    parse_transaction_ok_some_inv _ _ _ _ _ _ hr
  rw [getD_eq_of_get? 0 hpost, getD_eq_of_get? 0 hpre]

/-- C6 witness: on the §8 fixture's metadata the parsed amount is the
difference of the balances at index 1. -/
theorem C6_amount_from_fixed_index_one_witness :
    recordFixture.sol_amount =
      metaFixture.post_balances.getD 1 0 -
        metaFixture.pre_balances.getD 1 0 :=
  C6_amount_from_fixed_index_one.1 42 [sigFixture] parsedMsgFixture
    metaFixture (some 1625077743) recordFixture rfl

/-- C7: a record (in particular a valid one) inserted into any table state
is returned field-for-field unchanged by a subsequent
`get_all_transactions`, through the store's `u64`/`i64` casts. -/
theorem C7_insert_readAll_roundtrip (table : List Row)
    (r : TransactionData) (_hvalid : is_valid_transaction r = true)
    (hamount : r.sol_amount < 2 ^ 64) (hfee : r.fee < 2 ^ 64) :
    r ∈ get_all_transactions (insert_transaction table r) := by
  unfold insert_transaction get_all_transactions
  rw [List.map_append]
  refine List.mem_append_right _ ?_
  simp only [List.map_cons, List.map_nil, List.mem_singleton]
  rw [i64_as_u64_u64_as_i64 r.sol_amount hamount,
    i64_as_u64_u64_as_i64 r.fee hfee]

/-- C7 witness: the §8 fixture record round-trips through the store. -/
theorem C7_insert_readAll_roundtrip_witness :
    recordFixture ∈ get_all_transactions
      (insert_transaction [] recordFixture) :=
  C7_insert_readAll_roundtrip [] recordFixture (by decide) (by decide)
    (by decide)

/-- C8: the query endpoint serves the empty array when
`get_all_transactions` fails, and the full current record set when it
succeeds. -/
theorem C8_api_empty_on_failure :
    (∀ e : StorageError,
      get_transactions (Except.error e) = ([] : List TransactionData))
    ∧ ∀ ts : List TransactionData, get_transactions (Except.ok ts) = ts :=
  ⟨fun _ => rfl, fun _ => rfl⟩

/-- C9 counterexample: with a 10-unit period and a first cycle lasting 25
units, the nominal ticks at times 10 and 20 arrive while the first cycle
is still running; the loop executes both immediately at time 25 (tokio's
default burst behaviour) instead of dropping them, so the code's schedule
differs from the drop-missed-ticks schedule the claim describes. -/
theorem C9_missed_tick_executed_late :
    monitor_blockchain_schedule 10 [25, 0, 0] =
      [(0, 25), (25, 25), (25, 25)]
    ∧ skip_schedule 10 [25, 0, 0] = [(0, 25), (30, 30), (40, 40)]
    ∧ monitor_blockchain_schedule 10 [25, 0, 0] ≠
        skip_schedule 10 [25, 0, 0] := by
  refine ⟨by decide, by decide, by decide⟩

/-- C9 amended: at most one cycle's work is ever in progress (each cycle
ends no later than the next begins), but a tick whose nominal time passes
during a long cycle is executed late, immediately after the cycle ends,
rather than skipped. -/
theorem C9_single_flight_missed_ticks_burst :
    (∀ (p : Nat) (ds : List Nat),
      List.Chain' (fun a b : Nat × Nat => a.2 ≤ b.1)
        (monitor_blockchain_schedule p ds))
    ∧ monitor_blockchain_schedule 10 [25, 0, 0] =
        [(0, 25), (25, 25), (25, 25)] :=
  ⟨fun p ds => runCycles_chain p ds 0 0, by decide⟩

/-- C10: whenever `parse_transaction` produces a record, the sender is the
first account key's pubkey or the empty string when the key list is empty,
and the receiver is the last account key's pubkey or the empty string; on
the empty-key-list fixture parsing still succeeds with empty-string
addresses, which only the validator rejects. -/
theorem C10_sender_receiver_defaults :
    (∀ (slot : Nat) (sigs : List String) (msg : UiParsedMessage)
        (m : UiTransactionStatusMeta) (bt : Option Int)
        (r : TransactionData),
      parse_transaction
        ⟨slot, ⟨EncodedTransaction.json ⟨sigs, UiMessage.parsed msg⟩,
          some m⟩, bt⟩ = Except.ok (some r) →
        r.sender =
          ((msg.account_keys.head?).map ParsedAccount.pubkey).getD ""
        ∧ r.receiver =
          ((msg.account_keys.getLast?).map ParsedAccount.pubkey).getD "")
    ∧ parse_transaction txnEmptyKeys =
        Except.ok (some { recordFixture with sender := "", receiver := "" })
    ∧ is_valid_pubkey "" = false := by
  refine ⟨?_, rfl, by decide⟩
  intro slot sigs msg m bt r hr
  obtain ⟨post1, pre1, -, -, -, rfl⟩ :=
    parse_transaction_ok_some_inv _ _ _ _ _ _ hr
  exact ⟨rfl, rfl⟩

/-- C10 witness: with an empty account-key list the parsed sender and
receiver are both the empty string. -/
theorem C10_sender_receiver_defaults_witness :
    ({ recordFixture with sender := "", receiver := "" }).sender =
      ((([] : List ParsedAccount).head?).map ParsedAccount.pubkey).getD ""
    ∧ ({ recordFixture with sender := "", receiver := "" }).receiver =
      ((([] : List ParsedAccount).getLast?).map
        ParsedAccount.pubkey).getD "" :=
  C10_sender_receiver_defaults.1 42 [sigFixture]
    ⟨[], blockhashFixture⟩ metaFixture (some 1625077743)
    { recordFixture with sender := "", receiver := "" } rfl

end Aggregator
